import Mathlib

/-!
Shallow embedding of the guest-count-check server (src/app/server.js).

The upstream Commerce7 order-list API is modelled as an oracle
`pages : Nat → List Order` giving the content of each page for the
requested date range (a request without an explicit page parameter
returns page 1).  JavaScript objects are translated field-by-field for
exactly the fields the server code reads; optional / nullable fields
become `Option`.  A thrown JavaScript exception becomes `Except.error`.
-/

/-- A line item as read by the server code.  The only item field the
server ever reads is `productId` (the other upstream fields - name,
sku, quantity, price - are never touched by server.js). -/
structure Item where
  productId : String
deriving DecidableEq, Repr

/-- An order as read by the server code (server.js).  `guestCount` is
`none` when the JSON field is absent or null; `salesAssociate` is the
result of the optional chain `order.salesAssociate?.name` (`none` when
either the associate object or its name is absent); `items` is `none`
when the `items` field is absent or null. -/
structure Order where
  orderNumber : String
  salesAssociate : Option String
  orderPaidDate : Option String
  orderDate : Option String
  totalAmount : Option Int
  guestCount : Option Int
  items : Option (List Item)
deriving DecidableEq, Repr

/-- JavaScript truthiness of the `guestCount` field: `!order.guestCount`
holds when the field is absent/null (`none`) or zero. -/
def isFalsyGC : Option Int → Bool
  | none => true
  | some n => n == 0

/-- The fixed exclusion set of product ids (server.js lines 280-285):
NCG, Trade Guest, Club Member, Guests. -/
def excludedProductIDs : List String :=
  [ "fe778da9-5164-4688-acd2-98d044d7ce84"
  , "718b9fbb-4e23-48c7-8b2d-da86d2624b36"
  , "75d4f6cf-cf69-4e76-8f3b-bb35cc7ddeb3"
  , "7a5d9556-33e4-4d97-a3e8-37adefc6dcf0" ]

/-- The filter predicate of server.js lines 289-292:
`!order.guestCount && !order.items.some(item => excludedProductIDs.includes(item.productId))`.
JavaScript `&&` short-circuits, so `order.items` is only dereferenced
when `!order.guestCount` already holds; dereferencing an absent/null
`items` throws a TypeError, modelled as `Except.error`. -/
def guestCountFilterE (o : Order) : Except String Bool :=
  if isFalsyGC o.guestCount then
    match o.items with
    | none => .error "TypeError: cannot read properties of undefined"
    | some its => .ok (!(its.any (fun i => excludedProductIDs.contains i.productId)))
  else
    .ok false

/-- `Array.prototype.filter` with a predicate that can throw: elements
are visited left to right and the first thrown exception aborts the
whole traversal. -/
def filterE (p : Order → Except String Bool) : List Order → Except String (List Order)
  | [] => .ok []
  | o :: os =>
    match p o with
    | .error e => .error e
    | .ok b =>
      match filterE p os with
      | .error e => .error e
      | .ok rest => .ok (if b then o :: rest else rest)

/-- `filteredOrders` of the /api/orders handler (server.js lines 288-292). -/
def filteredOrdersE (os : List Order) : Except String (List Order) :=
  filterE guestCountFilterE os

/-- The item list an order's filter outcome is described by: the actual
list when present, `[]` when the field is absent (such an order can
only have survived the filter via the short-circuit). -/
def itemsOf (o : Order) : List Item :=
  o.items.getD []

/-- Boolean "the predicate returned true" view of an `Except` result. -/
def exceptIsOkTrue (x : Except String Bool) : Bool :=
  match x with
  | .ok b => b
  | .error _ => false

/- Concrete orders used as witness inputs. -/

/-- An order missing its guest count with no excluded product: retained. -/
def oInc : Order :=
  { orderNumber := "M1001", salesAssociate := some "Alice"
  , orderPaidDate := some "2024-01-05", orderDate := some "2024-01-05"
  , totalAmount := some 4200, guestCount := none
  , items := some [{ productId := "prod-1" }] }

/-- An order missing its guest count but carrying the Club Member
exclusion product: dropped. -/
def oClub : Order :=
  { orderNumber := "M1002", salesAssociate := some "Bob"
  , orderPaidDate := some "2024-01-06", orderDate := some "2024-01-06"
  , totalAmount := some 100, guestCount := none
  , items := some [{ productId := "75d4f6cf-cf69-4e76-8f3b-bb35cc7ddeb3" }] }

/-- An order that already has a (nonzero) guest count: dropped. -/
def oHasCount : Order :=
  { orderNumber := "M1003", salesAssociate := some "Alice"
  , orderPaidDate := some "2024-01-07", orderDate := some "2024-01-07"
  , totalAmount := some 900, guestCount := some 4
  , items := some [] }

/-- An order with a truthy guest count and an absent `items` field: the
`&&` short-circuit means the filter never dereferences `items`. -/
def oTruthyNoItems : Order :=
  { orderNumber := "M1004", salesAssociate := some "Bob"
  , orderPaidDate := some "2024-01-08", orderDate := some "2024-01-08"
  , totalAmount := some 100, guestCount := some 5
  , items := none }

/-- An order missing both its guest count and its sales associate. -/
def oNoAssoc : Order :=
  { orderNumber := "M1005", salesAssociate := none
  , orderPaidDate := some "2024-01-09", orderDate := some "2024-01-09"
  , totalAmount := some 100, guestCount := none
  , items := some [] }

/-- The fixed upstream page size (server.js line 177): Commerce7 serves
at most 50 orders per page. -/
def pageSize : Nat := 50

/-- The /api/orders pagination loop (server.js lines 179-234), with the
upstream modelled as `pages : Nat → List Order` for the requested date
range.  Each iteration issues one page request; the loop stops when a
page comes back empty (break before accumulating), when a page is
shorter than `pageSize` (last page), or when the incremented page
counter exceeds the safety ceiling of 100.  Returns the number of page
requests issued and the accumulated order sequence.  The 500ms
inter-request delay has no effect on the data flow and is not modelled. -/
def fetchLoop (pages : Nat → List Order) (page : Nat) (acc : List Order)
    (reqs : Nat) : Nat × List Order :=
  if (pages page).length = 0 then (reqs + 1, acc)
  else if (pages page).length < pageSize then (reqs + 1, acc ++ pages page)
  else if h : page + 1 > 100 then (reqs + 1, acc ++ pages page)
  else fetchLoop pages (page + 1) (acc ++ pages page) (reqs + 1)
termination_by 101 - page
decreasing_by omega

/-- The whole paginated fetch of /api/orders: start at page 1 with an
empty accumulator and zero requests issued. -/
def fetchAllOrders (pages : Nat → List Order) : Nat × List Order :=
  fetchLoop pages 1 [] 0

/-- A JavaScript error value as inspected by the catch blocks:
`error.response?.status`, `error.response?.data?.message` and
`error.message`. -/
structure JsError where
  status : Option Nat
  dataMessage : Option String
  message : String
deriving DecidableEq, Repr

/-- `error.response?.data?.message || error.message` (the `error` field
each catch block puts in its JSON body): the upstream data message when
present and non-empty, the thrown error's message otherwise. -/
def jsErrText (e : JsError) : String :=
  match e.dataMessage with
  | some s => if s = "" then e.message else s
  | none => e.message

/-- Response of the /api/orders endpoint: 200 with the filtered orders
and their count, or a JSON error with an HTTP status, a top-level
`message` and an `error` detail. -/
inductive OrdersResp
  | ok (orders : List Order) (total : Nat)
  | err (status : Nat) (message : String) (error : String)
deriving DecidableEq, Repr

/-- The catch block of /api/orders (server.js lines 303-321): every
thrown error - the empty-result `Error`, a page-fetch failure, the
filter's TypeError - becomes a 500 response with message
"Error fetching orders". -/
def ordersCatch (e : JsError) : OrdersResp :=
  .err 500 "Error fetching orders" (jsErrText e)

/-- The /api/orders handler after a completed fetch (server.js lines
238-301): an empty accumulated set throws
`Error("No orders found for the specified date range")`, otherwise the
guest-count filter runs (its TypeError, if any, is also caught) and the
filtered orders are returned with their count. -/
def apiOrdersRespond (allOrders : List Order) : OrdersResp :=
  if allOrders.length = 0 then
    ordersCatch { status := none, dataMessage := none
                , message := "No orders found for the specified date range" }
  else
    match filteredOrdersE allOrders with
    | .error e => ordersCatch { status := none, dataMessage := none, message := e }
    | .ok fo => .ok fo fo.length

/-- The /api/orders endpoint for a date range whose upstream pages all
arrive successfully: paginated fetch, then `apiOrdersRespond`. -/
def apiOrdersHandler (pages : Nat → List Order) : OrdersResp :=
  apiOrdersRespond (fetchAllOrders pages).2

/-- HTTP status of an /api/orders response (200 on the success path). -/
def ordersStatus : OrdersResp → Nat
  | .ok _ _ => 200
  | .err s _ _ => s

/-- The single upstream order-list request issued by /export and
/api/associates (server.js lines 509-518 and 402-411): one GET with no
page parameter, served by upstream as page 1.  Returns the number of
upstream order-list requests issued and the orders obtained. -/
def singlePageFetch (pages : Nat → List Order) : Nat × List Order :=
  (1, pages 1)

/-- `order.salesAssociate?.name || "Unknown"`: the associate name with
the literal fallback for an absent (or empty, hence falsy) name. -/
def saName (o : Order) : String :=
  match o.salesAssociate with
  | some n => if n = "" then "Unknown" else n
  | none => "Unknown"

/-- Helper of `splitComma`: walk the character list, cutting a piece at
every comma; `cur` holds the characters of the current piece reversed. -/
def splitCommaAux : List Char → List Char → List String
  | [], cur => [String.mk cur.reverse]
  | c :: cs, cur =>
    if c = ',' then String.mk cur.reverse :: splitCommaAux cs []
    else splitCommaAux cs (c :: cur)

/-- JavaScript `s.split(",")`: the comma-separated pieces of `s`, with
empty pieces kept (so `"".split(",")` is `[""]`). -/
def splitComma (s : String) : List String :=
  splitCommaAux s.toList []

/-- `associates.split(",").filter(Boolean)`: the supplied associate
names with empty pieces dropped. -/
def associateList (a : String) : List String :=
  (splitComma a).filter (fun x => x != "")

/-- The associate refinement of /export (server.js lines 542-549): when
the `associates` query parameter is truthy, split it on commas, drop
empty pieces, and if the resulting list is non-empty keep only orders
whose raw `salesAssociate?.name` is a member.  No "Unknown" fallback is
applied here: `associateList.includes(undefined)` is false. -/
def associateRefine : Option String → List Order → List Order
  | none, os => os
  | some a, os =>
    if a = "" then os
    else
      if (associateList a).length > 0 then
        os.filter (fun o =>
          match o.salesAssociate with
          | some n => (associateList a).contains n
          | none => false)
      else os

/-- Substring test of JavaScript `String.prototype.includes` on char
lists: `matchAt hay needle` checks a match at the head position. -/
def matchAt : List Char → List Char → Bool
  | _, [] => true
  | [], _ :: _ => false
  | h :: hs, n :: ns => h == n && matchAt hs ns

/-- `hay` contains `needle` at some position (true for an empty needle). -/
def findSub : List Char → List Char → Bool
  | [], n => n.isEmpty
  | hay@(_ :: hs), n => matchAt hay n || findSub hs n

/-- `hay.includes(needle)` on strings. -/
def strContains (hay needle : String) : Bool :=
  findSub hay.toList needle.toList

/-- The search refinement of /export (server.js lines 551-555): when a
truthy search string is supplied, keep orders whose order number
contains it case-insensitively. -/
def searchRefine : Option String → List Order → List Order
  | none, os => os
  | some s, os =>
    if s = "" then os
    else os.filter (fun o => strContains o.orderNumber.toLower s.toLower)

/-- The guest-count cell of an export row: `order.guestCount || "Missing"`
is the number when truthy and the literal string "Missing" otherwise. -/
inductive GCCell
  | count (n : Int)
  | missing
deriving DecidableEq, Repr

/-- A flat export row (server.js lines 557-563). -/
structure ExportRecord where
  OrderNumber : String
  SalesAssociate : String
  OrderDate : Option String
  TotalAmount : Int
  GuestCount : GCCell
deriving DecidableEq, Repr

/-- JavaScript `a || b` on optional strings ("" is falsy). -/
def jsOr (a b : Option String) : Option String :=
  match a with
  | some s => if s = "" then b else some s
  | none => b

/-- Projection of one order to an export row (server.js lines 557-563). -/
def exportProject (o : Order) : ExportRecord :=
  { OrderNumber := o.orderNumber
  , SalesAssociate := saName o
  , OrderDate := jsOr o.orderPaidDate o.orderDate
  , TotalAmount := o.totalAmount.getD 0
  , GuestCount :=
      match o.guestCount with
      | some n => if n = 0 then .missing else .count n
      | none => .missing }

/-- The projected record set of an /export request: single-page fetch,
guest-count filter (which can throw), associate refinement, search
refinement, projection. -/
def projectedRecords (pages : Nat → List Order) (associates search : Option String) :
    Except String (List ExportRecord) :=
  match filterE guestCountFilterE (singlePageFetch pages).2 with
  | .error e => .error e
  | .ok fo => .ok ((searchRefine search (associateRefine associates fo)).map exportProject)

/-- Response of the /export endpoint: a 400 JSON error, a 500 JSON error
from the catch block, or the generated workbook rows. -/
inductive ExportResp
  | badRequest (message : String)
  | serverError (message : String) (error : String)
  | workbook (records : List ExportRecord)
deriving DecidableEq, Repr

/-- The /export handler after date validation (server.js lines 509-601):
any thrown error is caught as a 500 "Error generating Excel report";
an empty projected record set returns 400 with
"No orders missing guest counts found."; otherwise the workbook is
built from the records. -/
def exportHandler (pages : Nat → List Order) (associates search : Option String) :
    ExportResp :=
  match projectedRecords pages associates search with
  | .error e => .serverError "Error generating Excel report" e
  | .ok recs =>
    if recs.length = 0 then .badRequest "No orders missing guest counts found."
    else .workbook recs

/-- Response of the /api/associates endpoint. -/
inductive AssociatesResp
  | ok (associates : List String) (total : Nat)
  | err (status : Nat) (message : String) (error : String)
deriving DecidableEq, Repr

/-- The /api/associates handler after date validation (server.js lines
402-445): single-page fetch, guest-count filter, then the deduplicated
(`[...new Set(...)]`, first occurrence kept) and sorted list of
associate names with the "Unknown" fallback. -/
def associatesHandler (pages : Nat → List Order) : AssociatesResp :=
  match filterE guestCountFilterE (singlePageFetch pages).2 with
  | .error e => .err 500 "Error fetching associates" e
  | .ok fo =>
    .ok (((fo.map saName).eraseDups).mergeSort (fun a b => a ≤ b))
      (((fo.map saName).eraseDups).mergeSort (fun a b => a ≤ b)).length

/-- Response of the /api/order/:orderId endpoint. -/
inductive DetailResp
  | ok (order : Order)
  | err (status : Nat) (message : String) (error : String)
deriving DecidableEq, Repr

/-- The /api/order/:orderId handler (server.js lines 325-358): on
success the upstream order object is forwarded; every failure - a 404
for a missing order as much as any transport or validation fault - goes
through the single catch block and becomes a 500 response with message
"Error fetching order details". -/
def orderDetailHandler (upstream : Except JsError Order) : DetailResp :=
  match upstream with
  | .ok o => .ok o
  | .error e => .err 500 "Error fetching order details" (jsErrText e)

/-- HTTP status of an order-detail response (200 on success). -/
def detailStatus : DetailResp → Nat
  | .ok _ => 200
  | .err s _ _ => s

/-- Top-level `message` field of an order-detail error response
(the empty string on the success path, which has no message field). -/
def detailMessage : DetailResp → String
  | .ok _ => ""
  | .err _ m _ => m

/-- A calendar date in UTC components, as produced by
`getUTCFullYear` / `getUTCMonth() + 1` / `getUTCDate`. -/
structure UTCDate where
  year : Nat
  month : Nat
  day : Nat
deriving DecidableEq, Repr

/-- `String(x).padStart(2, "0")`. -/
def padStart2 (s : String) : String :=
  if s.length ≥ 2 then s
  else if s.length = 1 then "0" ++ s
  else "00"

/-- Render a number the way the formatter renders months and days. -/
def pad2 (n : Nat) : String := padStart2 (toString n)

/-- Rendering step of `formatDate` (server.js lines 137-140):
`year-month-day` with the year unpadded and month/day padded to two
digits. -/
def renderDate (d : UTCDate) : String :=
  toString d.year ++ "-" ++ pad2 d.month ++ "-" ++ pad2 d.day

/-- The canonical-format test `/^\d{4}-\d{2}-\d{2}$/` of server.js line
127: exactly ten characters, digits everywhere except hyphens at
positions 4 and 7. -/
def isCanonicalFormat (s : String) : Bool :=
  match s.toList with
  | [y1, y2, y3, y4, h1, m1, m2, h2, d1, d2] =>
    y1.isDigit && y2.isDigit && y3.isDigit && y4.isDigit && h1 == '-' &&
      m1.isDigit && m2.isDigit && h2 == '-' && d1.isDigit && d2.isDigit
  | _ => false

/-- `formatDate` (server.js lines 124-145) on string inputs,
parameterized by the host's `new Date(string)` parser: a string already
in canonical form is passed through unchanged; otherwise it is parsed
(`none` models an invalid date, which makes formatDate throw) and
re-rendered from its UTC components. -/
def formatDate (parse : String → Option UTCDate) (s : String) : Option String :=
  if isCanonicalFormat s then some s
  else (parse s).map renderDate

/-- A host parser permitted by ECMAScript: on the conforming extended
ISO string "0500-03-07T00:00:00Z" it returns the specified instant's
UTC components; on every other string - including the non-conforming
"500-03-07", whose parsing ECMAScript leaves implementation-defined -
it reports an invalid date. -/
def hostParse0 : String → Option UTCDate :=
  fun s => if s = "0500-03-07T00:00:00Z" then some ⟨500, 3, 7⟩ else none

/-- A host parser that accepts nothing (only the canonical fast path of
`formatDate` succeeds under it). -/
def noParse : String → Option UTCDate := fun _ => none

/- Concrete upstream oracles used as witness inputs. -/

/-- A generic order used to populate synthetic pages. -/
def dummyOrder : Order :=
  { orderNumber := "M2000", salesAssociate := some "Carol"
  , orderPaidDate := some "2024-02-01", orderDate := some "2024-02-01"
  , totalAmount := some 1000, guestCount := none
  , items := some [{ productId := "prod-9" }] }

/-- Upstream serving pages of sizes 50, 50, 37 then nothing. -/
def pages3 : Nat → List Order :=
  fun k =>
    if k = 1 then List.replicate 50 dummyOrder
    else if k = 2 then List.replicate 50 dummyOrder
    else if k = 3 then List.replicate 37 dummyOrder
    else []

/-- Upstream serving a full page of 50 orders for every page number. -/
def constPages : Nat → List Order := fun _ => List.replicate 50 dummyOrder

/-- Upstream serving no orders at all. -/
def emptyPages : Nat → List Order := fun _ => []

/-- Upstream whose first page is `[oInc]` and whose later pages hold
`oClub`. -/
def pagesA : Nat → List Order := fun k => if k = 1 then [oInc] else [oClub]

/-- Upstream agreeing with `pagesA` on page 1 and empty elsewhere. -/
def pagesB : Nat → List Order := fun k => if k = 1 then [oInc] else []

/-- Upstream whose only order already has a guest count, so the
filtered and projected record set is empty. -/
def pages0 : Nat → List Order := fun k => if k = 1 then [oHasCount] else []

/-- The order-missing failure as axios surfaces it for an upstream 404. -/
def e404 : JsError :=
  { status := some 404, dataMessage := some "Order not found"
  , message := "Request failed with status code 404" }

/-- An unrelated transport failure. -/
def e503 : JsError :=
  { status := some 503, dataMessage := none, message := "connect ETIMEDOUT" }

/- ------------------------------------------------------------------ -/
/- Theorems. -/

theorem filterE_ok_each (p : Order → Except String Bool) :
    ∀ (os res : List Order), filterE p os = .ok res →
      ∀ o ∈ os, ∃ b, p o = .ok b := by
  intro os
  induction os with
  | nil => intro res h o ho; cases ho
  | cons a os ih =>
    intro res h o ho
    simp only [filterE] at h
    cases hp : p a with
    | error e => rw [hp] at h; cases h
    | ok b =>
      rw [hp] at h
      cases hrest : filterE p os with
      | error e => rw [hrest] at h; cases h
      | ok rest =>
        rcases List.mem_cons.mp ho with ho | ho
        · exact ⟨b, by rw [ho]; exact hp⟩
        · exact ih rest hrest o ho

theorem filterE_ok_eq (p : Order → Except String Bool) :
    ∀ (os res : List Order), filterE p os = .ok res →
      res = os.filter (fun o => exceptIsOkTrue (p o)) := by
  intro os
  induction os with
  | nil => intro res h; cases h; rfl
  | cons a os ih =>
    intro res h
    simp only [filterE] at h
    cases hp : p a with
    | error e => rw [hp] at h; cases h
    | ok b =>
      rw [hp] at h
      cases hrest : filterE p os with
      | error e => rw [hrest] at h; cases h
      | ok rest =>
        rw [hrest] at h
        injection h with h
        subst h
        have hfr := ih rest hrest
        subst hfr
        simp only [List.filter, exceptIsOkTrue, hp]
        cases b <;> simp

theorem gcFilter_ok_true_iff (o : Order) (b : Bool)
    (hb : guestCountFilterE o = .ok b) :
    b = true ↔
      (isFalsyGC o.guestCount = true ∧
        ∀ i ∈ itemsOf o, i.productId ∉ excludedProductIDs) := by
  unfold guestCountFilterE at hb
  by_cases hf : isFalsyGC o.guestCount
  · rw [if_pos hf] at hb
    cases hi : o.items with
    | none => rw [hi] at hb; cases hb
    | some its =>
      rw [hi] at hb
      injection hb with hb
      subst hb
      simp only [hf, true_and, itemsOf, hi, Option.getD_some]
      simp [List.any_eq_true]
  · rw [if_neg hf] at hb
    injection hb with hb
    subst hb
    simp only [Bool.false_eq_true, false_iff, not_and]
    intro hf2
    exact absurd hf2 hf

/-- C1: for every fetched order `o`, `o` is retained in the /api/orders
filtered result iff `o.guestCount` is falsy and none of `o`'s items has
a productId in the fixed exclusion set, and the retained orders keep
their relative input order (the result is a sublist of the input). -/
theorem c1_guest_count_filter (os res : List Order)
    (h : filteredOrdersE os = .ok res) (o : Order) :
    (o ∈ res ↔ o ∈ os ∧ isFalsyGC o.guestCount = true ∧
      ∀ i ∈ itemsOf o, i.productId ∉ excludedProductIDs)
    ∧ res.Sublist os := by
  have heq := filterE_ok_eq guestCountFilterE os res h
  constructor
  · rw [heq, List.mem_filter]
    constructor
    · rintro ⟨hmem, hpred⟩
      obtain ⟨b, hb⟩ := filterE_ok_each guestCountFilterE os res h o hmem
      refine ⟨hmem, ?_⟩
      apply (gcFilter_ok_true_iff o b hb).mp
      rw [hb] at hpred
      exact hpred
    · rintro ⟨hmem, hpred⟩
      obtain ⟨b, hb⟩ := filterE_ok_each guestCountFilterE os res h o hmem
      refine ⟨hmem, ?_⟩
      have hbt := (gcFilter_ok_true_iff o b hb).mpr hpred
      rw [hb]
      exact hbt
  · rw [heq]
    exact List.filter_sublist os

/-- C1 witness: on the concrete input `[oInc, oClub, oHasCount]` the
filter keeps exactly `oInc`, and the characterization holds for it. -/
theorem c1_witness :
    (oInc ∈ [oInc] ↔ oInc ∈ [oInc, oClub, oHasCount] ∧
      isFalsyGC oInc.guestCount = true ∧
      ∀ i ∈ itemsOf oInc, i.productId ∉ excludedProductIDs)
    ∧ List.Sublist [oInc] [oInc, oClub, oHasCount] :=
  c1_guest_count_filter [oInc, oClub, oHasCount] [oInc] (by rfl) oInc

/-- C10 counterexample: `oTruthyNoItems` has an absent `items` field,
yet the filter predicate does not throw on it - the truthy guest count
short-circuits the `&&` and the predicate returns the boolean false. -/
theorem c10_counterexample :
    oTruthyNoItems.items = none ∧
      guestCountFilterE oTruthyNoItems = .ok false :=
  ⟨rfl, rfl⟩

/-- C10 amended: the filter predicate throws (a TypeError on
`order.items.some`) exactly on orders whose guest count is falsy AND
whose `items` field is absent or null; when the guest count is truthy
the conjunction short-circuits and returns false without touching
`items`. -/
theorem c10_amended_throw_iff (o : Order) :
    (∃ e, guestCountFilterE o = .error e) ↔
      (isFalsyGC o.guestCount = true ∧ o.items = none) := by
  unfold guestCountFilterE
  by_cases hf : isFalsyGC o.guestCount
  · rw [if_pos hf]
    cases hi : o.items with
    | none => simp [hf]
    | some its => simp [hf]
  · rw [if_neg hf]
    simp [hf]

/-- C3 counterexample: with the associate set {"Unknown"} supplied to
/export, the order `oNoAssoc` - whose sales-associate name is absent,
so its fallback name is the literal "Unknown", a member of the set -
is nevertheless dropped by the associate refinement: the code tests
the raw `salesAssociate?.name` with no fallback. -/
theorem c3_counterexample :
    saName oNoAssoc = "Unknown" ∧
      (associateList "Unknown").contains "Unknown" = true ∧
      associateRefine (some "Unknown") [oNoAssoc] = [] :=
  ⟨rfl, by decide, by decide⟩

/-- C3 amended: for every non-empty set of associate names supplied to
/export, the refinement retains exactly the guest-count-filtered orders
whose raw sales-associate name is present and a member of the set; the
"Unknown" fallback is not applied, so orders with an absent name are
never retained. -/
theorem c3_associate_refine (a : String) (os : List Order) (o : Order)
    (ha : a ≠ "") (hl : (associateList a).length > 0) :
    o ∈ associateRefine (some a) os ↔
      o ∈ os ∧ ∃ n, o.salesAssociate = some n ∧ n ∈ associateList a := by
  show o ∈ (if a = "" then os else if (associateList a).length > 0 then _ else os) ↔ _
  rw [if_neg ha, if_pos hl, List.mem_filter]
  constructor
  · rintro ⟨hmem, hpred⟩
    refine ⟨hmem, ?_⟩
    cases hs : o.salesAssociate with
    | none => rw [hs] at hpred; cases hpred
    | some n =>
      rw [hs] at hpred
      exact ⟨n, rfl, List.elem_iff.mp hpred⟩
  · rintro ⟨hmem, n, hs, hn⟩
    refine ⟨hmem, ?_⟩
    rw [hs]
    exact List.elem_iff.mpr hn

/-- C3 witness: with the set {"Alice"}, the order `oInc` (associate
"Alice") satisfies the retention characterization on the concrete
input `[oInc, oNoAssoc]`. -/
theorem c3_witness :
    oInc ∈ associateRefine (some "Alice") [oInc, oNoAssoc] ↔
      oInc ∈ [oInc, oNoAssoc] ∧ ∃ n, oInc.salesAssociate = some n ∧
        n ∈ associateList "Alice" :=
  c3_associate_refine "Alice" [oInc, oNoAssoc] oInc (by decide) (by decide)

/-- C8 counterexample: the order-detail endpoint maps the upstream
order-missing failure `e404` and the unrelated transport failure `e503`
to responses with the identical status 500 and the identical top-level
message "Error fetching order details" - there is no NotFoundError
class distinct from the generic upstream error. -/
theorem c8_counterexample :
    detailStatus (orderDetailHandler (.error e404)) = 500 ∧
      detailStatus (orderDetailHandler (.error e404)) =
        detailStatus (orderDetailHandler (.error e503)) ∧
      detailMessage (orderDetailHandler (.error e404)) =
        detailMessage (orderDetailHandler (.error e503)) :=
  ⟨rfl, rfl, rfl⟩

/-- C8 amended: every upstream failure of /api/order/:orderId - the
order-missing 404 included - is mapped by the single catch block to
the same generic 500 response with message "Error fetching order
details"; only the forwarded upstream error text varies. -/
theorem c8_detail_errors_uniform (e : JsError) :
    orderDetailHandler (.error e) =
      .err 500 "Error fetching order details" (jsErrText e) := rfl

theorem fetchLoop_all_full (pages : Nat → List Order)
    (h : ∀ k, (pages k).length = 50) (n : Nat) :
    ∀ (page : Nat) (acc : List Order) (reqs : Nat), page + n = 100 →
      (fetchLoop pages page acc reqs).1 = reqs + n + 1 ∧
      (fetchLoop pages page acc reqs).2.length = acc.length + 50 * (n + 1) := by
  induction n with
  | zero =>
    intro page acc reqs hp
    have hp100 : page = 100 := by omega
    subst hp100
    rw [fetchLoop, h 100]
    rw [if_neg (by norm_num : ¬ ((50 : Nat) = 0))]
    rw [if_neg (by norm_num [pageSize] : ¬ ((50 : Nat) < pageSize))]
    rw [dif_pos (by norm_num : (100 : Nat) + 1 > 100)]
    constructor
    · rfl
    · simp [h 100]
  | succ m ih =>
    intro page acc reqs hp
    rw [fetchLoop, h page]
    rw [if_neg (by norm_num : ¬ ((50 : Nat) = 0))]
    rw [if_neg (by norm_num [pageSize] : ¬ ((50 : Nat) < pageSize))]
    rw [dif_neg (by omega : ¬ (page + 1 > 100))]
    have hrec := ih (page + 1) (acc ++ pages page) (reqs + 1) (by omega)
    constructor
    · rw [hrec.1]; omega
    · rw [hrec.2]
      simp [h page]
      omega

/-- C4: if upstream serves successive pages of sizes 50, 50, 37 for the
requested range, the /api/orders fetcher issues exactly 3 page requests
and accumulates exactly 137 orders (pages 1, 2 and 3 concatenated),
stopping because the third page is shorter than the page size of 50. -/
theorem c4_pagination_three_pages (pages : Nat → List Order)
    (h1 : (pages 1).length = 50) (h2 : (pages 2).length = 50)
    (h3 : (pages 3).length = 37) :
    fetchAllOrders pages = (3, pages 1 ++ pages 2 ++ pages 3) ∧
      (fetchAllOrders pages).2.length = 137 := by
  have e : fetchAllOrders pages = (3, pages 1 ++ pages 2 ++ pages 3) := by
    rw [fetchAllOrders]
    rw [fetchLoop, h1]
    rw [if_neg (by norm_num : ¬ ((50 : Nat) = 0))]
    rw [if_neg (by norm_num [pageSize] : ¬ ((50 : Nat) < pageSize))]
    rw [dif_neg (by norm_num : ¬ ((1 : Nat) + 1 > 100))]
    rw [fetchLoop, h2]
    rw [if_neg (by norm_num : ¬ ((50 : Nat) = 0))]
    rw [if_neg (by norm_num [pageSize] : ¬ ((50 : Nat) < pageSize))]
    rw [dif_neg (by norm_num : ¬ ((1 : Nat) + 1 + 1 > 100))]
    rw [fetchLoop, h3]
    rw [if_neg (by norm_num : ¬ ((37 : Nat) = 0))]
    rw [if_pos (by norm_num [pageSize] : (37 : Nat) < pageSize)]
    simp [List.append_assoc]
  refine ⟨e, ?_⟩
  rw [e]
  simp [h1, h2, h3]

/-- C4 witness: the concrete upstream `pages3` (pages of sizes 50, 50,
37, then nothing) yields exactly 3 requests and 137 accumulated orders. -/
theorem c4_witness :
    fetchAllOrders pages3 = (3, pages3 1 ++ pages3 2 ++ pages3 3) ∧
      (fetchAllOrders pages3).2.length = 137 :=
  c4_pagination_three_pages pages3 (by decide) (by decide) (by decide)

/-- C5: if every upstream page holds exactly 50 orders, the /api/orders
pagination loop terminates after issuing 100 page requests with exactly
5000 accumulated orders; the stop is the page-ceiling soft stop and the
result is an ordinary value (there is no error outcome in the loop's
return type). -/
theorem c5_pagination_safety_valve (pages : Nat → List Order)
    (h : ∀ k, (pages k).length = 50) :
    (fetchAllOrders pages).1 = 100 ∧ (fetchAllOrders pages).2.length = 5000 := by
  have hfull := fetchLoop_all_full pages h 99 1 [] 0 (by norm_num)
  rw [fetchAllOrders]
  constructor
  · rw [hfull.1]
  · rw [hfull.2]
    norm_num

/-- C5 witness: the concrete upstream `constPages` (50 orders on every
page) stops after 100 requests with 5000 orders. -/
theorem c5_witness :
    (fetchAllOrders constPages).1 = 100 ∧
      (fetchAllOrders constPages).2.length = 5000 :=
  c5_pagination_safety_valve constPages (fun k => by simp [constPages])

/-- C2 counterexample: a completed fetch with zero accumulated orders
(`emptyPages`: the first page is already empty) is answered with HTTP
status 500 - the transport-fault status, not a 400-class status. -/
theorem c2_counterexample :
    ordersStatus (apiOrdersHandler emptyPages) = 500 ∧
      ¬ (400 ≤ ordersStatus (apiOrdersHandler emptyPages) ∧
          ordersStatus (apiOrdersHandler emptyPages) < 500) := by
  have efetch : fetchAllOrders emptyPages = (1, []) := by
    rw [fetchAllOrders, fetchLoop]
    simp [emptyPages]
  have e : apiOrdersHandler emptyPages =
      .err 500 "Error fetching orders" "No orders found for the specified date range" := by
    rw [apiOrdersHandler, efetch]
    rfl
  rw [e]
  exact ⟨rfl, by decide⟩

/-- C2 amended: when the paginated fetch completes without an upstream
failure but accumulates zero orders, /api/orders throws
`Error("No orders found for the specified date range")`, which the
shared catch block maps to a 500 response with the same status and
top-level message as a transport fault; the no-data condition is
distinguishable only by the fixed `error` detail text. -/
theorem c2_empty_result_is_500 (pages : Nat → List Order)
    (h : (fetchAllOrders pages).2 = []) :
    apiOrdersHandler pages =
      .err 500 "Error fetching orders" "No orders found for the specified date range" := by
  rw [apiOrdersHandler, h]
  rfl

/-- C2 witness: the amended statement at the concrete upstream
`emptyPages`. -/
theorem c2_witness :
    apiOrdersHandler emptyPages =
      .err 500 "Error fetching orders" "No orders found for the specified date range" :=
  c2_empty_result_is_500 emptyPages
    (by rw [fetchAllOrders, fetchLoop]; simp [emptyPages])

/-- C6 counterexample: under the ECMAScript-permitted host parser
`hostParse0`, the input "0500-03-07T00:00:00Z" (a conforming ISO string
whose specified UTC year is 500) is accepted by formatDate and rendered
"500-03-07"; that output does not match the canonical pattern, and its
re-parse is implementation-defined and may be rejected, making the
second application of formatDate throw - so formatDate is not
idempotent on all accepted inputs. -/
theorem c6_counterexample :
    formatDate hostParse0 "0500-03-07T00:00:00Z" = some "500-03-07" ∧
      isCanonicalFormat "500-03-07" = false ∧
      formatDate hostParse0 "500-03-07" = none := by
  refine ⟨by decide, by decide, by decide⟩

/-- C6 amended: formatDate is idempotent on every accepted input whose
output matches the canonical YYYY-MM-DD pattern (in particular whenever
the parsed UTC year has four digits), because any string matching the
canonical pattern is passed through unchanged; for outputs falling
outside the pattern the second application re-parses a non-conforming
string, which ECMAScript leaves implementation-defined. -/
theorem c6_formatDate_idempotent_on_canonical
    (parse : String → Option UTCDate) (s r : String)
    (_h1 : formatDate parse s = some r) (h2 : isCanonicalFormat r = true) :
    formatDate parse r = some r := by
  rw [formatDate, if_pos h2]

/-- C6 witness: the canonical input "2024-01-15" is a fixpoint of
formatDate under a host parser that accepts nothing. -/
theorem c6_witness : formatDate noParse "2024-01-15" = some "2024-01-15" :=
  c6_formatDate_idempotent_on_canonical noParse "2024-01-15" "2024-01-15"
    (by decide) (by decide)

/-- C7: whenever the filtered/refined projected record set of an
/export request is empty, the endpoint responds 400 with message
"No orders missing guest counts found." - and in particular never
builds a workbook for it. -/
theorem c7_empty_export_400 (pages : Nat → List Order) (a s : Option String)
    (h : projectedRecords pages a s = .ok []) :
    exportHandler pages a s = .badRequest "No orders missing guest counts found." ∧
      ∀ recs, exportHandler pages a s ≠ .workbook recs := by
  have e : exportHandler pages a s = .badRequest "No orders missing guest counts found." := by
    rw [exportHandler, h]
    rfl
  exact ⟨e, fun recs hw => by rw [e] at hw; cases hw⟩

/-- C7 witness: the concrete upstream `pages0` (its only order already
has a guest count) produces an empty record set and a 400 response. -/
theorem c7_witness :
    exportHandler pages0 none none = .badRequest "No orders missing guest counts found." :=
  (c7_empty_export_400 pages0 none none (by rfl)).1

/-- C9: /export and /api/associates issue exactly one upstream
order-list request and their entire behaviour depends only on the first
upstream page: two upstreams agreeing on page 1 produce identical
responses, so orders on later pages are never considered by their
filtering, projection, or associate aggregation. -/
theorem c9_single_request (pages pages2 : Nat → List Order)
    (a s : Option String) (h : pages 1 = pages2 1) :
    (singlePageFetch pages).1 = 1 ∧
      (singlePageFetch pages).2 = pages 1 ∧
      exportHandler pages a s = exportHandler pages2 a s ∧
      associatesHandler pages = associatesHandler pages2 := by
  refine ⟨rfl, rfl, ?_, ?_⟩
  · rw [exportHandler, exportHandler, projectedRecords, projectedRecords,
      singlePageFetch, singlePageFetch, h]
  · rw [associatesHandler, associatesHandler, singlePageFetch, singlePageFetch, h]

/-- C9 witness: the upstreams `pagesA` and `pagesB` agree on page 1 and
differ on every later page, yet /export and /api/associates give the
same responses on both. -/
theorem c9_witness :
    (singlePageFetch pagesA).1 = 1 ∧
      (singlePageFetch pagesA).2 = pagesA 1 ∧
      exportHandler pagesA none none = exportHandler pagesB none none ∧
      associatesHandler pagesA = associatesHandler pagesB :=
  c9_single_request pagesA pagesB none none (by decide)
